import Mathlib

/-!
Verification of the forecast-grid normalization pipeline of
streamlit_app.py (NDF_Indonesia): longitude normalization, regional
subsetting, variable-alias resolution, unit conversion, precipitation
differencing, wind derivation and the thunderstorm flag, as shallow
Lean embeddings of the Python source.
-/

namespace NDF

/-- One cell of a coordinate axis of a gridded dataset: the coordinate
label paired with the data value stored at that label.  Model for one
axis of an xarray DataArray. -/
abbrev Cell := ℚ × ℚ

/-- Coordinate labels of an axis, in storage order. -/
def coords (g : List Cell) : List ℚ := g.map Prod.fst

/-- Python float modulo with a positive modulus: a % m = a - m * floor (a / m),
the convention used by `(lon + 180) % 360` in norm_lon_to_180. -/
def qmod (a m : ℚ) : ℚ := a - m * ⌊a / m⌋

/-- Remap of one longitude value in norm_lon_to_180:
((lon + 180) % 360) - 180. -/
def wrap180 (l : ℚ) : ℚ := qmod (l + 180) 360 - 180

/-- Test float(lon.max()) > 180.0 used by norm_lon_to_180 and
subset_domain: some coordinate of the axis exceeds 180. -/
def spansPast180 (ls : List ℚ) : Bool := ls.any fun l => decide (180 < l)

/-- Comparison on cells by coordinate label, used to re-sort the longitude
axis ascending (ds.sortby). -/
def lonLE (p q : Cell) : Bool := decide (p.1 ≤ q.1)

/-- norm_lon_to_180 (streamlit_app.py lines 129-137): if the longitude
axis reaches past 180, remap every coordinate through wrap180, keeping
each data value attached to its remapped coordinate, and re-sort the
axis ascending; otherwise return the dataset unchanged. -/
def norm_lon_to_180 (g : List Cell) : List Cell :=
  if spansPast180 (coords g) then
    (g.map fun p => (wrap180 p.1, p.2)).mergeSort lonLE
  else g

/-- Weak ascending monotonicity of an axis, as pandas
is_monotonic_increasing. -/
def ascB : List ℚ → Bool
  | [] => true
  | [_] => true
  | x :: y :: t => decide (x ≤ y) && ascB (y :: t)

/-- Label-based slice selection ds.sel(axis=slice(a, b)) on a monotonic
axis: an ascending axis keeps the labels c with a ≤ c ≤ b, a descending
axis keeps the labels c with b ≤ c ≤ a. -/
def selSlice (g : List Cell) (a b : ℚ) : List Cell :=
  if ascB (coords g) then
    g.filter fun p => decide (a ≤ p.1) && decide (p.1 ≤ b)
  else
    g.filter fun p => decide (b ≤ p.1) && decide (p.1 ≤ a)

/-- Bound projection to0360 inside subset_domain: a negative longitude
bound is shifted by 360. -/
def to0360 (x : ℚ) : ℚ := if x < 0 then x + 360 else x

/-- Longitude handling of subset_domain (lines 139-152): when the axis
still reaches past 180 and the requested lower bound is negative, both
bounds are projected into 0..360 before the label slice. -/
def subset_domain_lon (g : List Cell) (lon_min lon_max : ℚ) : List Cell :=
  if spansPast180 (coords g) && decide (lon_min < 0) then
    selSlice g (to0360 lon_min) (to0360 lon_max)
  else
    selSlice g lon_min lon_max

/-- Latitude handling of subset_domain (line 151): the label slice is
always taken as slice(lat_max, lat_min), with no direction detection. -/
def subset_domain_lat (rows : List Cell) (lat_min lat_max : ℚ) : List Cell :=
  selSlice rows lat_max lat_min

/-- Longitude stage of load_parameter (lines 205-219): normalize the
longitude axis with norm_lon_to_180, then subset with subset_domain. -/
def load_subset_lon (g : List Cell) (lon_min lon_max : ℚ) : List Cell :=
  subset_domain_lon (norm_lon_to_180 g) lon_min lon_max

/-- choose_first_var (lines 154-159): return the first candidate name
present among the dataset variables, or None when no candidate matches. -/
def choose_first_var (dataVars : List String) : List String → Option String
  | [] => none
  | c :: rest => if c ∈ dataVars then some c else choose_first_var dataVars rest

/-- compute_wind (lines 221-240) at the dataset level: None when either
component dataset is missing; otherwise the aligned pair of component
series. -/
def compute_wind_opt : Option (List ℚ) → Option (List ℚ) → Option (List (ℚ × ℚ))
  | some us, some vs => some (us.zip vs)
  | _, _ => none

/-- Labels appended to available_params (lines 342-348): one label per
parameter whose dataset is present (is not None), in source order. -/
def available_params (precip ts t2m wind cloud vis : Bool) : List String :=
  (if precip then ["Curah Hujan (mm/3 jam)"] else []) ++
  (if ts then ["Thunderstorm (0/1)"] else []) ++
  (if t2m then ["Temperature (°C)"] else []) ++
  (if wind then ["Arah & Kecepatan Angin (10 m)"] else []) ++
  (if cloud then ["Awan (%)"] else []) ++
  (if vis then ["Visibility"] else [])

/-- ASCII lowercasing of one character, the effect of Python str.lower
on the ASCII attribute strings involved. -/
def lowerChar (c : Char) : Char :=
  if 65 ≤ c.toNat ∧ c.toNat ≤ 90 then Char.ofNat (c.toNat + 32) else c

/-- ASCII lowercasing of a string. -/
def lowerStr (s : String) : String := ⟨s.data.map lowerChar⟩

/-- Character-list test that pat occurs at the head of l. -/
def headMatch : List Char → List Char → Bool
  | [], _ => true
  | _ :: _, [] => false
  | a :: as, b :: bs => a == b && headMatch as bs

/-- Character-list test that pat occurs somewhere inside l, engine of the
Python substring test `"accumulation" in s`. -/
def occursIn (pat : List Char) : List Char → Bool
  | [] => headMatch pat []
  | c :: rest => headMatch pat (c :: rest) || occursIn pat rest

/-- One precipitation variable as compute_ts_flag sees it: its xarray
name, its long_name and name attributes, and its time series. -/
structure PrecipVar where
  name : String
  attr_long_name : String
  attr_name : String
  series : List ℚ

/-- Accumulation test of compute_ts_flag (line 251): "accumulation"
occurs in the lowercased long_name plus name attributes, or the
lowercased variable name is tp or apcp. -/
def is_cumulative (v : PrecipVar) : Bool :=
  occursIn "accumulation".data
      ((lowerStr v.attr_long_name).data ++ (lowerStr v.attr_name).data)
    || decide (lowerStr v.name ∈ (["tp", "apcp"] : List String))

/-- pr.diff("valid_time", label="upper"): successive differences between
adjacent time steps, labeled at the later step. -/
def diffUpper (l : List ℚ) : List ℚ := l.tail.zipWith (fun a b => a - b) l

/-- Per-bucket accumulation of a cumulative series as realized per time
index (pick_field_at_time lines 383-388): index 0 has no prior baseline
and is NaN (none); index i+1 carries the difference cum (i+1) - cum i. -/
def cum_to_step : List ℚ → List (Option ℚ)
  | [] => []
  | x :: rest => none :: (diffUpper (x :: rest)).map some

/-- Per-step precipitation series used by compute_ts_flag (lines
249-256): successive differencing when the variable is cumulative; the
raw series unchanged otherwise (the pr_step = pr fallback). -/
def pr_step_series (v : PrecipVar) : List (Option ℚ) :=
  if is_cumulative v then cum_to_step v.series else v.series.map some

/-- Cell-level thunderstorm flag (line 257):
xr.where((cape >= 500) & (pr_step >= 1.0), 1, 0). -/
def ts_flag (cape pr : ℚ) : ℤ := if 500 ≤ cape ∧ 1 ≤ pr then 1 else 0

/-- Flag series over the cells where both CAPE and per-step
precipitation are defined; cells whose per-step value is undefined are
dropped by the inner alignment. -/
def ts_flag_zip (cape : List ℚ) (steps : List (Option ℚ)) : List ℤ :=
  (cape.zip steps).filterMap fun cp => cp.2.map fun p => ts_flag cp.1 p

/-- compute_ts_flag (lines 242-262) at the dataset level: None when the
CAPE or the precipitation dataset is missing (lines 244-245); otherwise
the flag grid over the aligned cells. -/
def compute_ts_flag : Option (List ℚ) → Option PrecipVar → Option (List ℤ)
  | some cape, some pr => some (ts_flag_zip cape (pr_step_series pr))
  | _, _ => none

/-- Temperature conversion of sample_timeseries and pick_field_at_time
(lines 380-382 and 454-455): when to_celsius is set, subtract 273.15
from every sample, unconditionally; otherwise pass the series through. -/
def to_celsius_series (vals : List ℚ) (to_celsius : Bool) : List ℚ :=
  if to_celsius then vals.map fun v => v - 273.15 else vals

/-- atan2 in the numpy convention, the meaning of np.arctan2(y, x) over
exact reals. -/
noncomputable def atan2 (y x : ℝ) : ℝ :=
  if 0 < x then Real.arctan (y / x)
  else if x < 0 ∧ 0 ≤ y then Real.arctan (y / x) + Real.pi
  else if x < 0 ∧ y < 0 then Real.arctan (y / x) - Real.pi
  else if x = 0 ∧ 0 < y then Real.pi / 2
  else if x = 0 ∧ y < 0 then -(Real.pi / 2)
  else 0

/-- Radians to degrees, the meaning of np.degrees. -/
noncomputable def degOf (θ : ℝ) : ℝ := θ * 180 / Real.pi

/-- Python float modulo over the reals, for a positive modulus. -/
noncomputable def fmod (x m : ℝ) : ℝ := x - m * (⌊x / m⌋ : ℤ)

/-- Wind speed of compute_wind (line 229): np.hypot(u, v). -/
noncomputable def windSpeed (u v : ℝ) : ℝ := Real.sqrt (u ^ 2 + v ^ 2)

/-- Wind direction of compute_wind (line 231):
(270 - np.degrees(np.arctan2(v, u))) % 360. -/
noncomputable def windDir (u v : ℝ) : ℝ := fmod (270 - degOf (atan2 v u)) 360

/-- Variables of a demo dataset that carries temperature, total
precipitation and CAPE but no wind components. -/
def demo_vars : List String := ["t2m", "tp", "cape"]

/-- Demo cumulative precipitation variable: name tp, cumulative series. -/
def tpDemo : PrecipVar := ⟨"tp", "Total precipitation", "", [0, 2, 5, 5]⟩

/-- Demo rate precipitation variable: GFS prate, a constant rate of
1e-4 kg per square metre per second at two steps. -/
def prateDemo : PrecipVar := ⟨"prate", "Precipitation rate", "", [1/10000, 1/10000]⟩

/-- Position i of diffUpper holds the difference of the source elements
at positions i+1 and i. -/
theorem diffUpper_getElem (l : List ℚ) (i : ℕ) (h : i + 1 < l.length) :
    (diffUpper l)[i]? = some (l.get ⟨i + 1, h⟩ - l.get ⟨i, Nat.lt_of_succ_lt h⟩) := by
  unfold diffUpper
  rw [List.getElem?_zipWith]
  rw [List.getElem?_tail]
  rw [List.getElem?_eq_getElem h, List.getElem?_eq_getElem (Nat.lt_of_succ_lt h)]
  simp

/-- Claim C3: for a cumulative precipitation variable, the per-bucket
accumulation used by the pipeline is the successive difference between
adjacent time steps; the first step has no prior baseline and is
undefined (none), never the raw accumulated value; on the cumulative
series [0, 2, 5, 5] this yields [none, 2, 3, 0]. -/
theorem c3_cumulative_differencing :
    (∀ v : PrecipVar, is_cumulative v = true →
        pr_step_series v = cum_to_step v.series) ∧
    (∀ (x : ℚ) (rest : List ℚ), (cum_to_step (x :: rest)).head? = some none) ∧
    (∀ (cum : List ℚ) (i : ℕ) (h : i + 1 < cum.length),
        (cum_to_step cum)[i + 1]? =
          some (some (cum.get ⟨i + 1, h⟩ - cum.get ⟨i, Nat.lt_of_succ_lt h⟩))) ∧
    cum_to_step [0, 2, 5, 5] = [none, some 2, some 3, some 0] := by
  refine ⟨fun v hv => by simp [pr_step_series, hv], fun x rest => rfl, ?_, ?_⟩
  · intro cum i h
    match cum with
    | x :: rest =>
      show (none :: (diffUpper (x :: rest)).map some)[i + 1]? = _
      rw [List.getElem?_cons_succ, List.getElem?_map,
        diffUpper_getElem (x :: rest) i h]
      rfl
  · norm_num [cum_to_step, diffUpper]

/-- Witness for C3 at the concrete cumulative variable tpDemo and the
concrete series [0, 2, 5, 5]. -/
theorem c3_cumulative_differencing_witness :
    pr_step_series tpDemo = cum_to_step [0, 2, 5, 5] ∧
    (cum_to_step [0, 2, 5, 5])[2]? =
      some (some (([0, 2, 5, 5] : List ℚ).get ⟨2, by decide⟩ -
        ([0, 2, 5, 5] : List ℚ).get ⟨1, by decide⟩)) :=
  ⟨c3_cumulative_differencing.1 tpDemo (by decide),
   c3_cumulative_differencing.2.2.1 [0, 2, 5, 5] 1 (by decide)⟩

/-- Claim C4 counterexample: the claim says a value at or below the
sanity threshold 100 (already Celsius) is left unchanged, but the code
subtracts 273.15 from it unconditionally: 30 becomes -243.15. -/
theorem c4_counterexample :
    to_celsius_series [30] true = [-243.15] ∧ ((-243.15 : ℚ)) ≠ 30 := by
  constructor
  · norm_num [to_celsius_series]
  · norm_num

/-- Claim C4 as amended: the temperature conversion subtracts 273.15
from every sample unconditionally (no magnitude threshold is tested);
in particular 300.0 K becomes exactly 26.85 °C, and with to_celsius
unset the series passes through unchanged. -/
theorem c4_kelvin_unconditional :
    (∀ (vals : List ℚ) (i : ℕ),
        (to_celsius_series vals true)[i]? = vals[i]?.map fun v => v - 273.15) ∧
    (∀ vals : List ℚ, to_celsius_series vals false = vals) ∧
    to_celsius_series [300] true = [26.85] := by
  refine ⟨fun vals i => ?_, fun vals => rfl, ?_⟩
  · simp [to_celsius_series]
  · norm_num [to_celsius_series]

/-- Claim C6: where CAPE and per-bucket precipitation are both present,
the thunderstorm flag is 1 exactly when CAPE ≥ 500 and precipitation
≥ 1 mm per bucket, and 0 otherwise; CAPE 600 with 1.5 mm gives 1, CAPE
400 with 1.5 mm gives 0. -/
theorem c6_ts_flag_iff :
    (∀ cape pr : ℚ,
        (ts_flag cape pr = 1 ↔ (500 ≤ cape ∧ 1 ≤ pr)) ∧
        (ts_flag cape pr = 0 ↔ ¬(500 ≤ cape ∧ 1 ≤ pr))) ∧
    (∀ cape pr : ℚ, ts_flag_zip [cape] [some pr] = [ts_flag cape pr]) ∧
    ts_flag 600 (3/2) = 1 ∧ ts_flag 400 (3/2) = 0 := by
  refine ⟨fun cape pr => ?_, fun cape pr => rfl, ?_, ?_⟩
  · unfold ts_flag
    by_cases h : 500 ≤ cape ∧ 1 ≤ pr <;> simp [h]
  · norm_num [ts_flag]
  · norm_num [ts_flag]

/-- Witness for C6 at CAPE 600 and 400 with 1.5 mm per bucket. -/
theorem c6_ts_flag_iff_witness :
    ts_flag 600 (3/2) = 1 ∧ ts_flag 400 (3/2) = 0 :=
  ⟨((c6_ts_flag_iff.1 600 (3/2)).1).mpr (by norm_num),
   ((c6_ts_flag_iff.1 400 (3/2)).2).mpr (by norm_num)⟩

/-- Claim C7 counterexample: the claim says a rate of 1e-4 kg per
square metre per second is multiplied by the 10800 s bucket width,
giving 1.08 mm; the code performs no such multiplication — the rate
variable prate is not cumulative, so pr_step = pr passes the raw value
1e-4 through unchanged, and 1e-4 is not 1.08. -/
theorem c7_counterexample :
    is_cumulative prateDemo = false ∧
    pr_step_series prateDemo = [some (1/10000), some (1/10000)] ∧
    ((1 : ℚ)/10000) * 10800 = 1.08 ∧ ((1 : ℚ)/10000) ≠ 1.08 := by
  have hc : is_cumulative prateDemo = false := by decide
  refine ⟨hc, ?_, by norm_num, by norm_num⟩
  unfold pr_step_series
  rw [hc]
  rfl

/-- Claim C7 as amended: no rate-to-accumulation conversion exists in
the code; a non-cumulative (rate) precipitation variable falls through
compute_ts_flag unchanged (the pr_step = pr fallback), so a rate of
1e-4 enters the 1 mm threshold as 1e-4 and the flag stays 0 at CAPE
600, even though the 3-hour accumulation 1e-4 * 10800 = 1.08 mm would
pass the threshold. -/
theorem c7_rate_passthrough :
    (∀ v : PrecipVar, is_cumulative v = false →
        pr_step_series v = v.series.map some) ∧
    pr_step_series prateDemo = [some (1/10000), some (1/10000)] ∧
    ts_flag 600 (1/10000) = 0 ∧ (1 : ℚ) ≤ (1/10000) * 10800 := by
  refine ⟨fun v hv => by simp [pr_step_series, hv], ?_, ?_, by norm_num⟩
  · unfold pr_step_series
    rw [(by decide : is_cumulative prateDemo = false)]
    rfl
  · norm_num [ts_flag]

/-- Witness for C7 at the concrete rate variable prateDemo. -/
theorem c7_rate_passthrough_witness :
    pr_step_series prateDemo = prateDemo.series.map some :=
  c7_rate_passthrough.1 prateDemo (by decide)

/-- Claim C8 counterexample: with the CAPE dataset missing, the claim
says the thunderstorm flag is still emitted as an explicit all-zero
field, but compute_ts_flag returns None and the Thunderstorm label is
omitted from the available-parameter list. -/
theorem c8_counterexample :
    compute_ts_flag none (some tpDemo) = none ∧
    "Thunderstorm (0/1)" ∉ available_params true false true true true true := by
  exact ⟨rfl, by decide⟩

/-- Claim C8 as amended: when the CAPE dataset or the precipitation
dataset is unresolvable, compute_ts_flag returns None, and the
Thunderstorm parameter is omitted from the available-parameter list
rather than emitted as an all-zero field. -/
theorem c8_flag_omitted :
    (∀ p : Option PrecipVar, compute_ts_flag none p = none) ∧
    (∀ c : Option (List ℚ), compute_ts_flag c none = none) ∧
    (∀ precip t2m wind cloud vis : Bool,
        "Thunderstorm (0/1)" ∉ available_params precip false t2m wind cloud vis) := by
  refine ⟨fun p => by cases p <;> rfl, fun c => by cases c <;> rfl, ?_⟩
  intro precip t2m wind cloud vis
  cases precip <;> cases t2m <;> cases wind <;> cases cloud <;> cases vis <;> decide

/-- Witness for C8 with the precipitation dataset present and every
other optional dataset absent. -/
theorem c8_flag_omitted_witness :
    compute_ts_flag none (some prateDemo) = none ∧
    "Thunderstorm (0/1)" ∉ available_params true false false false false false :=
  ⟨c8_flag_omitted.1 (some prateDemo), c8_flag_omitted.2.2 true false false false false⟩

/-- Claim C1: choose_first_var returns the first alias present in the
dataset and an explicit none when no alias matches; resolution of one
parameter reads only the membership of its own aliases, so a dataset
missing the wind components still resolves temperature and
precipitation, with the wind composite reported unavailable. -/
theorem c1_variable_resolution :
    (∀ vars cands : List String,
        (choose_first_var vars cands = none ↔ ∀ c ∈ cands, c ∉ vars)) ∧
    (∀ (vars cands : List String) (v : String),
        choose_first_var vars cands = some v →
          v ∈ vars ∧ ∃ pre post, cands = pre ++ v :: post ∧ ∀ c ∈ pre, c ∉ vars) ∧
    (∀ vars₁ vars₂ cands : List String,
        (∀ c ∈ cands, (c ∈ vars₁ ↔ c ∈ vars₂)) →
        choose_first_var vars₁ cands = choose_first_var vars₂ cands) ∧
    (choose_first_var demo_vars ["t2m", "2t", "t"] = some "t2m" ∧
     choose_first_var demo_vars ["tp", "apcp", "prate", "total_precipitation"] = some "tp" ∧
     choose_first_var demo_vars ["u10", "10u", "u"] = none ∧
     choose_first_var demo_vars ["v10", "10v", "v"] = none ∧
     compute_wind_opt none none = none) := by
  refine ⟨?_, ?_, ?_, by decide, by decide, by decide, by decide, rfl⟩
  · intro vars cands
    induction cands with
    | nil => simp [choose_first_var]
    | cons c rest ih =>
      by_cases h : c ∈ vars
      · simp [choose_first_var, h]
      · simp [choose_first_var, h, ih]
  · intro vars cands
    induction cands with
    | nil => intro v hv; simp [choose_first_var] at hv
    | cons c rest ih =>
      intro v hv
      by_cases h : c ∈ vars
      · simp only [choose_first_var, if_pos h, Option.some.injEq] at hv
        subst hv
        exact ⟨h, [], rest, rfl, by simp⟩
      · simp only [choose_first_var, if_neg h] at hv
        obtain ⟨hvin, pre, post, heq, hpre⟩ := ih v hv
        refine ⟨hvin, c :: pre, post, by simp [heq], ?_⟩
        intro x hx
        rcases List.mem_cons.mp hx with rfl | hx
        · exact h
        · exact hpre x hx
  · intro vars₁ vars₂ cands h
    induction cands with
    | nil => rfl
    | cons c rest ih =>
      have hc := h c (List.mem_cons_self c rest)
      by_cases h1 : c ∈ vars₁
      · have h2 : c ∈ vars₂ := hc.mp h1
        simp [choose_first_var, h1, h2]
      · have h2 : c ∉ vars₂ := fun hx => h1 (hc.mpr hx)
        simp only [choose_first_var, if_neg h1, if_neg h2]
        exact ih fun x hx => h x (List.mem_cons_of_mem c hx)

/-- Witness for C1: the resolution conjuncts instantiated at concrete
alias lists and datasets. -/
theorem lonLE_trans : ∀ a b c : Cell, lonLE a b → lonLE b c → lonLE a c := by
  intro a b c hab hbc
  simp only [lonLE, decide_eq_true_eq] at *
  exact le_trans hab hbc

theorem lonLE_total : ∀ a b : Cell, lonLE a b || lonLE b a := by
  intro a b
  simp only [lonLE, Bool.or_eq_true, decide_eq_true_eq]
  exact le_total a.1 b.1

theorem ascB_of_pairwise : ∀ ls : List ℚ, ls.Pairwise (· ≤ ·) → ascB ls = true
  | [], _ => rfl
  | [_], _ => rfl
  | x :: y :: t, h => by
    rw [List.pairwise_cons] at h
    have hxy : x ≤ y := h.1 y (List.mem_cons_self _ _)
    have ht := ascB_of_pairwise (y :: t) h.2
    simp only [ascB, ht, decide_eq_true hxy, Bool.and_self]

theorem ascB_coords_of_pairwise (l : List Cell)
    (h : l.Pairwise fun p q => lonLE p q) : ascB (coords l) = true := by
  apply ascB_of_pairwise
  rw [coords, List.pairwise_map]
  exact h.imp fun hpq => by simpa [lonLE] using hpq

theorem qmod360_bounds (a : ℚ) : 0 ≤ qmod a 360 ∧ qmod a 360 < 360 := by
  unfold qmod
  have h1 : ((⌊a / 360⌋ : ℤ) : ℚ) ≤ a / 360 := Int.floor_le _
  have h2 : a / 360 < (⌊a / 360⌋ : ℤ) + 1 := Int.lt_floor_add_one _
  have h1m : ((⌊a / 360⌋ : ℤ) : ℚ) * 360 ≤ a := by
    rw [← le_div_iff₀ (by norm_num : (0:ℚ) < 360)]
    exact h1
  have h2m : a < (((⌊a / 360⌋ : ℤ) : ℚ) + 1) * 360 := by
    rw [← div_lt_iff₀ (by norm_num : (0:ℚ) < 360)]
    exact h2
  constructor <;> nlinarith

theorem wrap180_bounds (l : ℚ) : -180 ≤ wrap180 l ∧ wrap180 l < 180 := by
  unfold wrap180
  have h := qmod360_bounds (l + 180)
  constructor <;> linarith [h.1, h.2]

theorem wrap180_low (l : ℚ) (h0 : 0 ≤ l) (h1 : l < 180) : wrap180 l = l := by
  unfold wrap180 qmod
  have hf : ⌊(l + 180) / 360⌋ = 0 := by
    rw [Int.floor_eq_iff]
    push_cast
    constructor
    · positivity
    · rw [div_lt_iff₀ (by norm_num : (0:ℚ) < 360)]
      linarith
  rw [hf]
  push_cast
  ring

theorem wrap180_high (l : ℚ) (h0 : 180 < l) (h1 : l < 360) : wrap180 l = l - 360 := by
  unfold wrap180 qmod
  have hf : ⌊(l + 180) / 360⌋ = 1 := by
    rw [Int.floor_eq_iff]
    push_cast
    constructor
    · rw [le_div_iff₀ (by norm_num : (0:ℚ) < 360)]
      linarith
    · rw [div_lt_iff₀ (by norm_num : (0:ℚ) < 360)]
      linarith
  rw [hf]
  push_cast
  ring

/-- Claim C9: when the longitude axis spans past 180, norm_lon_to_180
remaps it into the signed convention — the output axis is ascending,
every coordinate is in [-180, 180), and the output is a permutation of
the cells with remapped coordinates, each data value still attached;
the remap happens exactly when the axis spans past 180, so an
already-normalized (signed, ascending) dataset passes through
unchanged. -/
theorem c9_norm_lon_idempotent :
    ∀ g : List Cell,
      (spansPast180 (coords g) = true →
        ascB (coords (norm_lon_to_180 g)) = true ∧
        (∀ p ∈ norm_lon_to_180 g, -180 ≤ p.1 ∧ p.1 < 180) ∧
        (norm_lon_to_180 g).Perm (g.map fun p => (wrap180 p.1, p.2))) ∧
      (spansPast180 (coords g) = false → norm_lon_to_180 g = g) ∧
      ((∀ l ∈ coords g, -180 ≤ l ∧ l < 180) → ascB (coords g) = true →
        norm_lon_to_180 g = g) := by
  intro g
  have hfalse : spansPast180 (coords g) = false → norm_lon_to_180 g = g := by
    intro hs
    simp [norm_lon_to_180, hs]
  refine ⟨?_, hfalse, ?_⟩
  · intro hs
    have hdef : norm_lon_to_180 g = (g.map fun p => (wrap180 p.1, p.2)).mergeSort lonLE := by
      simp [norm_lon_to_180, hs]
    refine ⟨?_, ?_, ?_⟩
    · rw [hdef]
      exact ascB_coords_of_pairwise _ (List.sorted_mergeSort lonLE_trans lonLE_total _)
    · intro p hp
      rw [hdef, List.mem_mergeSort] at hp
      obtain ⟨q, hq, rfl⟩ := List.mem_map.mp hp
      exact wrap180_bounds q.1
    · rw [hdef]
      exact List.mergeSort_perm _ _
  · intro hrange hasc
    apply hfalse
    rw [spansPast180, List.any_eq_false]
    intro x hx
    simp only [decide_eq_true_eq, not_lt]
    linarith [(hrange x hx).2]

/-- Witness for C9: a two-cell axis spanning past 180 comes out
ascending, and a signed single-cell axis passes through unchanged. -/
theorem c9_norm_lon_idempotent_witness :
    ascB (coords (norm_lon_to_180 [((200 : ℚ), 1), (0, 2)])) = true ∧
    norm_lon_to_180 [((50 : ℚ), 1)] = [((50 : ℚ), 1)] :=
  ⟨((c9_norm_lon_idempotent [((200 : ℚ), 1), (0, 2)]).1 (by decide)).1,
   (c9_norm_lon_idempotent [((50 : ℚ), 1)]).2.2 (by decide) (by decide)⟩

/-- Claim C2: subset_domain projects signed bounds into the dataset's
own longitude convention before slicing, and through the load_parameter
pipeline (normalize, then subset) a dataset on a [0, 360) axis spanning
past 180, queried with lon_min = -5, lon_max = 5, selects every cell
whose original longitude lies in [355, 360) or [0, 5] — at its remapped
coordinate — and the selection is not empty. -/
theorem c2_lon_convention :
    (∀ (g : List Cell) (lmin lmax : ℚ),
        spansPast180 (coords g) = true → lmin < 0 →
        subset_domain_lon g lmin lmax = selSlice g (to0360 lmin) (to0360 lmax)) ∧
    (∀ g : List Cell,
        (∀ p ∈ g, 0 ≤ p.1 ∧ p.1 < 360) →
        spansPast180 (coords g) = true →
        ∀ p ∈ g, (355 ≤ p.1 ∨ p.1 ≤ 5) →
          (wrap180 p.1, p.2) ∈ load_subset_lon g (-5) 5 ∧
          load_subset_lon g (-5) 5 ≠ []) := by
  constructor
  · intro g lmin lmax hs hneg
    simp [subset_domain_lon, hs, hneg]
  · intro g hrange hs p hp hsel
    have hdef : norm_lon_to_180 g = (g.map fun q => (wrap180 q.1, q.2)).mergeSort lonLE := by
      simp [norm_lon_to_180, hs]
    have hr : ∀ q ∈ norm_lon_to_180 g, -180 ≤ q.1 ∧ q.1 < 180 := by
      intro q hq
      rw [hdef, List.mem_mergeSort] at hq
      obtain ⟨r, hrm, rfl⟩ := List.mem_map.mp hq
      exact wrap180_bounds r.1
    have hs2 : spansPast180 (coords (norm_lon_to_180 g)) = false := by
      rw [spansPast180, List.any_eq_false]
      intro x hx
      simp only [decide_eq_true_eq, not_lt]
      obtain ⟨q, hq, rfl⟩ := List.mem_map.mp hx
      linarith [(hr q hq).2]
    have hasc : ascB (coords (norm_lon_to_180 g)) = true := by
      rw [hdef]
      exact ascB_coords_of_pairwise _ (List.sorted_mergeSort lonLE_trans lonLE_total _)
    have hres : load_subset_lon g (-5) 5 =
        (norm_lon_to_180 g).filter fun q => decide (-5 ≤ q.1) && decide (q.1 ≤ 5) := by
      rw [load_subset_lon, subset_domain_lon, hs2]
      simp only [Bool.false_and, if_neg (Bool.false_ne_true)]
      rw [selSlice, if_pos hasc]
    have hw : -5 ≤ wrap180 p.1 ∧ wrap180 p.1 ≤ 5 := by
      rcases hsel with h355 | h5
      · have h360 := (hrange p hp).2
        rw [wrap180_high p.1 (by linarith) h360]
        constructor <;> linarith
      · have h0 := (hrange p hp).1
        rw [wrap180_low p.1 h0 (by linarith)]
        constructor <;> linarith
    have hmem : (wrap180 p.1, p.2) ∈ load_subset_lon g (-5) 5 := by
      rw [hres]
      apply List.mem_filter.mpr
      refine ⟨?_, ?_⟩
      · rw [hdef, List.mem_mergeSort]
        exact List.mem_map_of_mem _ hp
      · simp only [Bool.and_eq_true, decide_eq_true_eq]
        exact hw
    exact ⟨hmem, List.ne_nil_of_mem hmem⟩

/-- Witness for C2: a six-cell [0, 360) grid spanning past 180 keeps
the cell at original longitude 355 in the -5..5 selection. -/
theorem c2_lon_convention_witness :
    (wrap180 355, (5 : ℚ)) ∈
      load_subset_lon [((0 : ℚ), 1), (5, 2), (100, 3), (200, 4), (355, 5), (359, 6)] (-5) 5 ∧
    load_subset_lon [((0 : ℚ), 1), (5, 2), (100, 3), (200, 4), (355, 5), (359, 6)] (-5) 5 ≠ [] :=
  c2_lon_convention.2 [((0 : ℚ), 1), (5, 2), (100, 3), (200, 4), (355, 5), (359, 6)]
    (by decide) (by decide) (355, 5) (by decide) (by decide)

/-- Claim C10 counterexample: on a grid whose latitude axis is stored
ascending ([0, 1, 2, 3]) with bounds lat_min = 1, lat_max = 2, the
subset is empty, while the rows with lat_min ≤ latitude ≤ lat_max are
[(1, 11), (2, 12)]: no direction detection takes place. -/
theorem c10_counterexample :
    subset_domain_lat [((0 : ℚ), 10), (1, 11), (2, 12), (3, 13)] 1 2 = [] ∧
    ([((0 : ℚ), 10), (1, 11), (2, 12), (3, 13)].filter
        fun p => decide ((1 : ℚ) ≤ p.1) && decide (p.1 ≤ 2)) = [(1, 11), (2, 12)] := by
  constructor <;> decide

/-- Claim C10 as amended: subset_domain always slices latitude with the
bounds ordered (lat_max, lat_min) and never detects the axis direction;
on a descending axis this selects exactly the rows with
lat_min ≤ latitude ≤ lat_max, but on an ascending axis with
lat_min < lat_max the selection is empty. -/
theorem c10_lat_slice_descending :
    ∀ (rows : List Cell) (lat_min lat_max : ℚ),
      (ascB (coords rows) = false →
        subset_domain_lat rows lat_min lat_max =
          rows.filter fun p => decide (lat_min ≤ p.1) && decide (p.1 ≤ lat_max)) ∧
      (ascB (coords rows) = true → lat_min < lat_max →
        subset_domain_lat rows lat_min lat_max = []) := by
  intro rows lat_min lat_max
  constructor
  · intro h
    rw [subset_domain_lat, selSlice, if_neg (by simp [h])]
  · intro h hlt
    rw [subset_domain_lat, selSlice, if_pos h, List.filter_eq_nil_iff]
    intro p hp
    simp only [Bool.and_eq_true, decide_eq_true_eq, not_and]
    intro h1 h2
    linarith

/-- Witness for C10: the descending grid [3, 2, 1, 0] is filtered to
the in-range rows, and the ascending grid [0, 1, 2, 3] yields the
empty selection. -/
theorem c10_lat_slice_descending_witness :
    subset_domain_lat [((3 : ℚ), 13), (2, 12), (1, 11), (0, 10)] 1 2 =
      ([((3 : ℚ), 13), (2, 12), (1, 11), (0, 10)].filter
        fun p => decide ((1 : ℚ) ≤ p.1) && decide (p.1 ≤ 2)) ∧
    subset_domain_lat [((10 : ℚ), 1), (11, 2)] 1 2 = [] :=
  ⟨(c10_lat_slice_descending [((3 : ℚ), 13), (2, 12), (1, 11), (0, 10)] 1 2).1 (by decide),
   (c10_lat_slice_descending [((10 : ℚ), 1), (11, 2)] 1 2).2 (by decide) (by decide)⟩

theorem fmod_bounds (x : ℝ) : 0 ≤ fmod x 360 ∧ fmod x 360 < 360 := by
  unfold fmod
  have h1 : ((⌊x / 360⌋ : ℤ) : ℝ) ≤ x / 360 := Int.floor_le _
  have h2 : x / 360 < (⌊x / 360⌋ : ℤ) + 1 := Int.lt_floor_add_one _
  have h1m : ((⌊x / 360⌋ : ℤ) : ℝ) * 360 ≤ x := by
    rw [← le_div_iff₀ (by norm_num : (0:ℝ) < 360)]
    exact h1
  have h2m : x < (((⌊x / 360⌋ : ℤ) : ℝ) + 1) * 360 := by
    rw [← div_lt_iff₀ (by norm_num : (0:ℝ) < 360)]
    exact h2
  constructor <;> nlinarith

theorem atan2_south : atan2 (-5) 0 = -(Real.pi / 2) := by
  unfold atan2
  norm_num

theorem atan2_west : atan2 0 (-5) = Real.pi := by
  unfold atan2
  norm_num

/-- Claim C5: the derived wind has speed sqrt(u^2 + v^2) and direction
(270 - atan2(v, u) in degrees) mod 360, always in [0, 360) in the
meteorological blowing-from convention; u=0, v=-5 gives speed 5 and
direction 0, and u=-5, v=0 gives direction 90. -/
theorem c5_wind_derivation :
    (∀ u v : ℝ, windSpeed u v = Real.sqrt (u ^ 2 + v ^ 2)) ∧
    (∀ u v : ℝ, windDir u v = fmod (270 - degOf (atan2 v u)) 360) ∧
    (∀ u v : ℝ, 0 ≤ windDir u v ∧ windDir u v < 360) ∧
    windSpeed 0 (-5) = 5 ∧ windDir 0 (-5) = 0 ∧ windDir (-5) 0 = 90 := by
  refine ⟨fun u v => rfl, fun u v => rfl, fun u v => fmod_bounds _, ?_, ?_, ?_⟩
  · unfold windSpeed
    rw [show ((0:ℝ) ^ 2 + (-5) ^ 2) = 5 ^ 2 by norm_num]
    exact Real.sqrt_sq (by norm_num)
  · unfold windDir
    rw [atan2_south]
    unfold degOf
    rw [show -(Real.pi / 2) * 180 / Real.pi = -90 by
      field_simp
      ring]
    unfold fmod
    norm_num
  · unfold windDir
    rw [atan2_west]
    unfold degOf
    rw [show Real.pi * 180 / Real.pi = 180 by field_simp]
    unfold fmod
    norm_num [Int.floor_eq_zero_iff]

theorem c1_variable_resolution_witness :
    choose_first_var ["tp"] ["u10", "10u", "u"] = none ∧
    "t2m" ∈ demo_vars ∧
    choose_first_var ["t2m", "vis"] ["t2m"] = choose_first_var ["t2m"] ["t2m"] :=
  ⟨(c1_variable_resolution.1 ["tp"] ["u10", "10u", "u"]).mpr (by decide),
   (c1_variable_resolution.2.1 demo_vars ["t2m", "2t", "t"] "t2m" (by decide)).1,
   c1_variable_resolution.2.2.1 ["t2m", "vis"] ["t2m"] ["t2m"] (by decide)⟩

end NDF
